import Mathlib

/-!
Shallow embedding of `src/test-server/server.py` (sync-patterns broadcast
test server): the connection registry held in
`WebSocketBroadcastBackend._connections`, the inline subscribe/unsubscribe
operations of the `websocket_broadcast` handler, the `broadcast` fan-out,
and the read-only counters.

Connections are identified by a natural number (Python reference identity:
distinct connections are distinct keys).  JSON values received from
`websocket.receive_json()` and sent through `json.dumps` are modelled by the
`Json` type below; Python `set` objects (the subscription sets) are modelled
as `Finset Scalar`, where `Scalar` is the hashable fragment of `Json`: the
`setUpdate`/`setDifferenceUpdate` operations raise `TypeError` on unhashable
elements exactly where `set.update`/`set.difference_update` would, so a set
only ever holds scalars.  Python numeric equality conflations (`True == 1`,
int/float) are not modelled: no claim compares a boolean with a number.
-/

namespace SyncPatterns

/-- A hashable JSON scalar: the values a Python `set` can hold here.
Numbers are modelled as integers (no claim involves floats). -/
inductive Scalar where
  | str (s : String)
  | num (n : Int)
  | boolean (b : Bool)
  | null
deriving DecidableEq, Repr

/-- A JSON value, as produced by `websocket.receive_json()` / consumed by
`json.dumps`. -/
inductive Json where
  | scalar (v : Scalar)
  | arr (items : List Json)
  | obj (fields : List (String × Json))

/-- Shorthand for a JSON string. -/
def Json.str (s : String) : Json := .scalar (.str s)

/-- Shorthand for a JSON integer. -/
def Json.num (n : Int) : Json := .scalar (.num n)

/-- Shorthand for JSON `null`. -/
def Json.null : Json := .scalar .null

/-- `json.dumps` on a scalar. -/
def dumpsScalar : Scalar → String
  | .str s => "\"" ++ s ++ "\""
  | .num n => toString n
  | .boolean b => cond b "true" "false"
  | .null => "null"

/-- `json.dumps` with its default separators (`", "` between array items and
object fields, `": "` after keys), preserving dict insertion order.  String
escaping is elided: no claim involves a string needing escapes. -/
def dumps : Json → String
  | .scalar v => dumpsScalar v
  | .arr items =>
      "[" ++ String.intercalate ", " (items.attach.map (fun x => dumps x.1)) ++ "]"
  | .obj fields =>
      "\x7b" ++ String.intercalate ", "
        (fields.attach.map (fun f => "\"" ++ f.1.1 ++ "\": " ++ dumps f.1.2)) ++ "\x7d"
decreasing_by
· have h := List.sizeOf_lt_of_mem x.2
  simp only [Json.arr.sizeOf_spec]
  omega
· have h := List.sizeOf_lt_of_mem f.2
  obtain ⟨⟨k, v⟩, hf⟩ := f
  simp only [Prod.mk.sizeOf_spec] at h
  simp only [Json.obj.sizeOf_spec]
  omega

/-- A WebSocket connection handle.  Python identity is reference identity, so
an opaque natural-number id is enough: distinct connections have distinct ids. -/
abbrev Conn := Nat

/-- The Python exceptions the embedded code paths can raise. -/
inductive PyErr where
  | keyError
  | typeError
deriving DecidableEq, Repr

instance instDecEqExcept {ε α : Type} [DecidableEq ε] [DecidableEq α] :
    DecidableEq (Except ε α) := fun x y =>
  match x, y with
  | .ok a, .ok b =>
      if h : a = b then isTrue (congrArg Except.ok h)
      else isFalse (fun hc => h (Except.ok.inj hc))
  | .error e, .error f =>
      if h : e = f then isTrue (congrArg Except.error h)
      else isFalse (fun hc => h (Except.error.inj hc))
  | .ok _, .error _ => isFalse (fun hc => Except.noConfusion hc)
  | .error _, .ok _ => isFalse (fun hc => Except.noConfusion hc)

/-- A subscription set: a Python `set`, which can only hold hashable values. -/
abbrev SubSet := Finset Scalar

/-- The registry `self._connections : dict[WebSocket, set[str]]`, modelled as
an insertion-ordered association list.  A Python dict has unique keys; that
invariant is `WF` below. -/
abbrev Registry := List (Conn × SubSet)

/-- Dict invariant: keys are unique (true of every reachable
`self._connections`, since it is a Python dict). -/
def WF (st : Registry) : Prop := (st.map Prod.fst).Nodup

instance decidableWF (st : Registry) : Decidable (WF st) :=
  inferInstanceAs (Decidable ((st.map Prod.fst).Nodup))

/-- Python `isinstance(channels, list)` (lines 70 and 76). -/
def isList : Json → Bool
  | .arr _ => true
  | _ => false

/-- Dict lookup `self._connections[websocket]`, as an `Option`. -/
def lookupConn (st : Registry) (ws : Conn) : Option SubSet :=
  (st.find? (fun p => p.1 = ws)).map Prod.snd

/-- In-place replacement of the value stored under a present key (a Python
`set.update`/`set.difference_update` mutates the stored set object, keeping
its dict position). -/
def writeConn (st : Registry) (ws : Conn) (v : SubSet) : Registry :=
  st.map (fun p => if p.1 = ws then (p.1, v) else p)

/-- Dict assignment `self._connections[websocket] = set()` (line 62):
overwrite in place if the key is present, else append. -/
def register (st : Registry) (ws : Conn) : Registry :=
  if st.any (fun p => p.1 = ws) then writeConn st ws ∅ else st ++ [(ws, ∅)]

/-- The hashable check: `arr`/`obj` values are unhashable, scalars hash. -/
def asScalar : Json → Option Scalar
  | .scalar v => some v
  | .arr _ => none
  | .obj _ => none

/-- Python `set.update(channels)`: insert elements one at a time;
an unhashable element raises `TypeError`. -/
def setUpdate (s : SubSet) (xs : List Json) : Except PyErr SubSet :=
  match xs with
  | [] => .ok s
  | x :: rest =>
      match asScalar x with
      | some v => setUpdate (insert v s) rest
      | none => .error .typeError

/-- Python `set.difference_update(channels)`: remove elements one at a time;
an unhashable element raises `TypeError`. -/
def setDifferenceUpdate (s : SubSet) (xs : List Json) : Except PyErr SubSet :=
  match xs with
  | [] => .ok s
  | x :: rest =>
      match asScalar x with
      | some v => setDifferenceUpdate (s.erase v) rest
      | none => .error .typeError

/-- Lines 71-72: `self._connections[websocket].update(channels)` under the
lock.  Dict indexing raises `KeyError` when the connection is not registered;
otherwise the stored set is updated in place. -/
def subscribe (st : Registry) (ws : Conn) (channels : List Json) :
    Except PyErr Registry :=
  match lookupConn st ws with
  | none => .error .keyError
  | some s => (setUpdate s channels).map (fun s2 => writeConn st ws s2)

/-- Lines 77-78: `self._connections[websocket].difference_update(channels)`
under the lock. -/
def unsubscribe (st : Registry) (ws : Conn) (channels : List Json) :
    Except PyErr Registry :=
  match lookupConn st ws with
  | none => .error .keyError
  | some s => (setDifferenceUpdate s channels).map (fun s2 => writeConn st ws s2)

/-- Lines 83-84: `self._connections.pop(websocket, None)` — remove the key if
present, silently do nothing otherwise. -/
def unregister (st : Registry) (ws : Conn) : Registry :=
  st.filter (fun p => p.1 ≠ ws)

/-- Lines 111-117: `get_subscriber_count` — a counting loop over
`self._connections.values()`. -/
def get_subscriber_count (st : Registry) (channel : String) : Nat :=
  st.foldl (fun count p => if Scalar.str channel ∈ p.2 then count + 1 else count) 0

/-- Lines 119-121: `get_total_connections` — `len(self._connections)`. -/
def get_total_connections (st : Registry) : Nat :=
  st.length

/-- Observable events of one `broadcast` call: lock acquisition/release of
`self._lock` and per-connection send attempts (`send` when
`ws.send_text(message_json)` returns, `sendFail` when it raises and the
`except Exception: pass` swallows the error). -/
inductive Ev where
  | acquire
  | release
  | send (ws : Conn) (text : String)
  | sendFail (ws : Conn)
deriving DecidableEq, Repr

/-- Is this event a send attempt (successful or failed)? -/
def isAttempt : Ev → Bool
  | .send _ _ => true
  | .sendFail _ => true
  | _ => false

/-- Is this event a send attempt directed at connection `ws`? -/
def isAttemptTo (ws : Conn) : Ev → Bool
  | .send w _ => w = ws
  | .sendFail w => w = ws
  | _ => false

/-- How many send attempts of the trace are directed at connection `ws`. -/
def attemptsTo (tr : List Ev) (ws : Conn) : Nat :=
  tr.countP (isAttemptTo ws)

/-- Lines 95-99: the `message` dict built at publish time, with its keys in
insertion order channel/event/payload. -/
def message (channel event_type : String) (payload : Json) : Json :=
  .obj [("channel", .str channel), ("event", .str event_type), ("payload", payload)]

/-- Line 100: `message_json = json.dumps(message)` — computed once per
`broadcast` call, before the fan-out loop. -/
def message_json (channel event_type : String) (payload : Json) : String :=
  dumps (message channel event_type payload)

/-- Lines 105-109: one `try: await ws.send_text(message_json) except
Exception: pass` attempt.  `fault ws` says whether `ws.send_text` raises for
that connection; the `except` swallows the exception, which we record as a
`sendFail` event. -/
def sendAttempt (fault : Conn → Bool) (mj : String) (ws : Conn) : Ev :=
  if fault ws then .sendFail ws else .send ws mj

/-- Lines 88-109: `broadcast(channel, event_type, payload)`.  Builds the
message dict, serializes it once, then — while holding `self._lock` —
iterates the snapshot `list(self._connections.items())` and attempts one
`send_text` per connection whose subscription set contains `channel`,
swallowing per-send exceptions.  Returns the event trace and the registry,
which `broadcast` never mutates (the loop body only sends). -/
def broadcast (st : Registry) (fault : Conn → Bool) (channel event_type : String)
    (payload : Json) : List Ev × Registry :=
  let mj := message_json channel event_type payload
  let body := st.filterMap (fun p =>
    if Scalar.str channel ∈ p.2 then some (sendAttempt fault mj p.1) else none)
  (Ev.acquire :: body ++ [Ev.release], st)

/-- The send attempts of a trace that happen while the lock is held,
tracking lock state left to right. -/
def attemptsLocked (locked : Bool) : List Ev → List Ev
  | [] => []
  | .acquire :: rest => attemptsLocked true rest
  | .release :: rest => attemptsLocked false rest
  | e :: rest => (if locked then [e] else []) ++ attemptsLocked locked rest

/-- Send attempts performed inside a critical section of the trace. -/
def sendsWhileLocked (tr : List Ev) : List Ev :=
  attemptsLocked false tr

/-- Python `key in data` for a string key (the `"subscribe" in data` test on
line 68): dict → key membership; list → element equality against the string;
str → substring containment (the keys used are nonempty, so the `splitOn`
characterization is exact); numbers, booleans and `None` are not iterable →
`TypeError`. -/
def pyContainsKey (key : String) : Json → Except PyErr Bool
  | .obj fields => .ok (fields.any (fun f => f.1 = key))
  | .arr items => .ok (items.any (fun x =>
      match x with
      | .scalar (.str s) => s = key
      | _ => false))
  | .scalar (.str s) => .ok ((s.splitOn key).length > 1)
  | .scalar _ => .error .typeError

/-- Python `data[key]` for a string key (`data["subscribe"]` on line 69):
dict lookup raising `KeyError` when absent (parsed JSON has unique keys);
anything else raises `TypeError` for a string index. -/
def pySubscript (v : Json) (key : String) : Except PyErr Json :=
  match v with
  | .obj fields =>
      match fields.find? (fun f => f.1 = key) with
      | some f => .ok f.2
      | none => .error .keyError
  | _ => .error .typeError

/-- Lines 68-72: the first block of the read loop —
`if "subscribe" in data: channels = data["subscribe"]; if
isinstance(channels, list): ... update(channels)`. -/
def subscribeStep (st : Registry) (ws : Conn) (data : Json) :
    Except PyErr Registry := do
  let hasSub ← pyContainsKey "subscribe" data
  if hasSub then
    let channels ← pySubscript data "subscribe"
    match channels with
    | .arr items => subscribe st ws items
    | _ => pure st
  else pure st

/-- Lines 74-78: the second block of the read loop —
`if "unsubscribe" in data: channels = data["unsubscribe"]; if
isinstance(channels, list): ... difference_update(channels)`. -/
def unsubscribeStep (st : Registry) (ws : Conn) (data : Json) :
    Except PyErr Registry := do
  let hasUnsub ← pyContainsKey "unsubscribe" data
  if hasUnsub then
    let channels ← pySubscript data "unsubscribe"
    match channels with
    | .arr items => unsubscribe st ws items
    | _ => pure st
  else pure st

/-- Lines 66-78: the body of the read loop for one frame `data` returned by
`websocket.receive_json()`: the subscribe block, then the unsubscribe block.
`.ok` means the loop proceeds to the next `receive_json`; `.error` means an
exception propagates, terminating the loop (and hence the connection, after
the `finally` cleanup of lines 82-84). -/
def handleFrame (st : Registry) (ws : Conn) (data : Json) :
    Except PyErr Registry := do
  let st1 ← subscribeStep st ws data
  unsubscribeStep st1 ws data

/-! ### Lemmas about lookup, write-back and the set operations -/

theorem lookupConn_cons (p : Conn × SubSet) (tl : Registry) (ws : Conn) :
    lookupConn (p :: tl) ws = if p.1 = ws then some p.2 else lookupConn tl ws := by
  by_cases h : p.1 = ws
  · simp [lookupConn, List.find?_cons_of_pos, h]
  · rw [lookupConn, List.find?_cons_of_neg tl (by simpa using h), if_neg h]
    rfl

theorem writeConn_cons (p : Conn × SubSet) (tl : Registry) (ws : Conn) (v : SubSet) :
    writeConn (p :: tl) ws v =
      (if p.1 = ws then (p.1, v) else p) :: writeConn tl ws v := by
  simp [writeConn]

theorem lookupConn_writeConn_self (st : Registry) (ws : Conn) (S v : SubSet)
    (h : lookupConn st ws = some S) :
    lookupConn (writeConn st ws v) ws = some v := by
  induction st with
  | nil => simp [lookupConn] at h
  | cons p tl ih =>
    rw [lookupConn_cons] at h
    rw [writeConn_cons]
    by_cases hp : p.1 = ws
    · rw [if_pos hp, lookupConn_cons, if_pos hp]
    · rw [if_neg hp, lookupConn_cons, if_neg hp]
      rw [if_neg hp] at h
      exact ih h

theorem setUpdate_map_str (L : List String) (s : SubSet) :
    setUpdate s (L.map Json.str) = .ok (s ∪ (L.map Scalar.str).toFinset) := by
  induction L generalizing s with
  | nil => simp [setUpdate]
  | cons a L ih =>
    simp only [List.map_cons, setUpdate, Json.str, asScalar, ih, List.toFinset_cons,
      Finset.insert_union, Finset.union_insert]

theorem setDifferenceUpdate_map_str (L : List String) (s : SubSet) :
    setDifferenceUpdate s (L.map Json.str) = .ok (s \ (L.map Scalar.str).toFinset) := by
  induction L generalizing s with
  | nil => simp [setDifferenceUpdate]
  | cons a L ih =>
    simp only [List.map_cons, setDifferenceUpdate, Json.str, asScalar, ih,
      List.toFinset_cons]
    congr 1
    rw [Finset.erase_eq, sdiff_sdiff_left, Finset.insert_eq, Finset.sup_eq_union]

theorem subscribe_map_str (st : Registry) (ws : Conn) (S : SubSet) (L : List String)
    (h : lookupConn st ws = some S) :
    subscribe st ws (L.map Json.str) =
      .ok (writeConn st ws (S ∪ (L.map Scalar.str).toFinset)) := by
  simp only [subscribe, h, setUpdate_map_str, Except.map]

theorem unsubscribe_map_str (st : Registry) (ws : Conn) (S : SubSet) (L : List String)
    (h : lookupConn st ws = some S) :
    unsubscribe st ws (L.map Json.str) =
      .ok (writeConn st ws (S \ (L.map Scalar.str).toFinset)) := by
  simp only [unsubscribe, h, setDifferenceUpdate_map_str, Except.map]

/-! ### Lemmas about counting and the broadcast trace -/

theorem foldl_count_eq (Q : Conn × SubSet → Prop) [DecidablePred Q] (st : Registry)
    (n : Nat) :
    st.foldl (fun count p => if Q p then count + 1 else count) n =
      n + (st.filter (fun p => Q p)).length := by
  induction st generalizing n with
  | nil => simp
  | cons p tl ih =>
    by_cases h : Q p <;> simp [List.filter_cons, h, ih] <;> omega

theorem broadcast_fst (st : Registry) (fault : Conn → Bool)
    (channel event_type : String) (payload : Json) :
    (broadcast st fault channel event_type payload).1 =
      Ev.acquire :: st.filterMap (fun p =>
        if Scalar.str channel ∈ p.2 then
          some (sendAttempt fault (message_json channel event_type payload) p.1)
        else none) ++ [Ev.release] := rfl

theorem isAttemptTo_sendAttempt (ws w : Conn) (fault : Conn → Bool) (mj : String) :
    isAttemptTo ws (sendAttempt fault mj w) = decide (w = ws) := by
  by_cases h : fault w <;> simp [sendAttempt, isAttemptTo, h]

theorem isAttempt_sendAttempt (w : Conn) (fault : Conn → Bool) (mj : String) :
    isAttempt (sendAttempt fault mj w) = true := by
  by_cases h : fault w <;> simp [sendAttempt, isAttempt, h]

theorem countP_broadcast (st : Registry) (fault : Conn → Bool)
    (channel event_type : String) (payload : Json) (q : Ev → Bool)
    (hacq : q .acquire = false) (hrel : q .release = false) :
    (broadcast st fault channel event_type payload).1.countP q =
      st.countP (fun p => decide (Scalar.str channel ∈ p.2) &&
        q (sendAttempt fault (message_json channel event_type payload) p.1)) := by
  rw [broadcast_fst, List.countP_append, List.countP_cons, List.countP_filterMap]
  simp only [List.countP_cons, List.countP_nil, hacq, hrel, Bool.false_eq_true, if_false,
    Nat.add_zero, Nat.zero_add]
  apply List.countP_congr
  intro p hp
  by_cases h : Scalar.str channel ∈ p.2 <;> simp [h]

theorem countP_key_of_nodup (st : Registry) (hwf : WF st) (ws : Conn)
    (q : Conn → SubSet → Bool) :
    st.countP (fun p => q p.1 p.2 && decide (p.1 = ws)) =
      (match lookupConn st ws with
       | some s => if q ws s then 1 else 0
       | none => 0) := by
  induction st with
  | nil => simp [lookupConn]
  | cons p tl ih =>
    rw [WF, List.map_cons, List.nodup_cons] at hwf
    obtain ⟨hp, htl⟩ := hwf
    rw [List.countP_cons, lookupConn_cons]
    by_cases h : p.1 = ws
    · subst h
      have hz : tl.countP (fun r => q r.1 r.2 && decide (r.1 = p.1)) = 0 := by
        rw [List.countP_eq_zero]
        intro r hr
        simp only [Bool.and_eq_true, decide_eq_true_eq, not_and]
        intro _ hkey
        exact absurd (hkey ▸ List.mem_map_of_mem Prod.fst hr) hp
      rw [hz]
      by_cases hq : q p.1 p.2 <;> simp [hq]
    · rw [ih htl, if_neg h]
      by_cases hq : q p.1 p.2 <;> simp [h, hq]

theorem attemptsLocked_true_of_attempts (body rest : List Ev)
    (h : ∀ e ∈ body, isAttempt e = true) :
    attemptsLocked true (body ++ rest) = body ++ attemptsLocked true rest := by
  induction body with
  | nil => simp
  | cons e body ih =>
    have he := h e (List.mem_cons_self e body)
    have hrest : ∀ x ∈ body, isAttempt x = true := fun x hx =>
      h x (List.mem_cons_of_mem e hx)
    cases e with
    | acquire => simp [isAttempt] at he
    | release => simp [isAttempt] at he
    | send w m => simp [attemptsLocked, ih hrest]
    | sendFail w => simp [attemptsLocked, ih hrest]

theorem broadcast_body_attempts (st : Registry) (fault : Conn → Bool)
    (channel : String) (mj : String) :
    ∀ e ∈ st.filterMap (fun p =>
        if Scalar.str channel ∈ p.2 then some (sendAttempt fault mj p.1) else none),
      isAttempt e = true := by
  intro e he
  obtain ⟨p, hp, hpe⟩ := List.mem_filterMap.mp he
  by_cases h : Scalar.str channel ∈ p.2
  · rw [if_pos h, Option.some.injEq] at hpe
    exact hpe ▸ isAttempt_sendAttempt p.1 fault mj
  · rw [if_neg h] at hpe
    exact absurd hpe (Option.noConfusion)

/-! ### Lemmas about the frame-handling steps -/

theorem ok_bind {α β : Type} (a : α) (f : α → Except PyErr β) :
    (Except.ok a : Except PyErr α) >>= f = f a := rfl

theorem subscribeStep_obj_malformed (st : Registry) (ws : Conn)
    (fields : List (String × Json))
    (h : ∀ f ∈ fields, f.1 = "subscribe" → isList f.2 = false) :
    subscribeStep st ws (.obj fields) = .ok st := by
  rw [subscribeStep]
  simp only [pyContainsKey, ok_bind]
  cases hA : fields.any (fun f => decide (f.1 = "subscribe")) with
  | false => rfl
  | true =>
    obtain ⟨f, hfmem, hfkey⟩ := List.any_eq_true.mp hA
    rw [decide_eq_true_eq] at hfkey
    have hsome : (fields.find? (fun f => decide (f.1 = "subscribe"))).isSome :=
      List.find?_isSome.mpr ⟨f, hfmem, by simp [hfkey]⟩
    obtain ⟨f0, hfind⟩ := Option.isSome_iff_exists.mp hsome
    have hkey0 : f0.1 = "subscribe" := by simpa using List.find?_some hfind
    have hlist := h f0 (List.mem_of_find?_eq_some hfind) hkey0
    simp only [if_true, pySubscript, hfind, ok_bind]
    cases hv : f0.2 with
    | arr items => rw [hv] at hlist; simp [isList] at hlist
    | scalar v => rfl
    | obj fs => rfl

theorem subscribeStep_obj_arr (st : Registry) (ws : Conn)
    (fields : List (String × Json)) (items : List Json)
    (hfind : fields.find? (fun f => decide (f.1 = "subscribe")) =
      some ("subscribe", .arr items)) :
    subscribeStep st ws (.obj fields) = subscribe st ws items := by
  have hmem := List.mem_of_find?_eq_some hfind
  have hkey := List.find?_some hfind
  have hany : fields.any (fun f => decide (f.1 = "subscribe")) = true :=
    List.any_eq_true.mpr ⟨("subscribe", Json.arr items), hmem, hkey⟩
  rw [subscribeStep]
  simp only [pyContainsKey, ok_bind, hany, if_true, pySubscript, hfind]

theorem unsubscribeStep_obj_malformed (st : Registry) (ws : Conn)
    (fields : List (String × Json))
    (h : ∀ f ∈ fields, f.1 = "unsubscribe" → isList f.2 = false) :
    unsubscribeStep st ws (.obj fields) = .ok st := by
  rw [unsubscribeStep]
  simp only [pyContainsKey, ok_bind]
  cases hA : fields.any (fun f => decide (f.1 = "unsubscribe")) with
  | false => rfl
  | true =>
    obtain ⟨f, hfmem, hfkey⟩ := List.any_eq_true.mp hA
    rw [decide_eq_true_eq] at hfkey
    have hsome : (fields.find? (fun f => decide (f.1 = "unsubscribe"))).isSome :=
      List.find?_isSome.mpr ⟨f, hfmem, by simp [hfkey]⟩
    obtain ⟨f0, hfind⟩ := Option.isSome_iff_exists.mp hsome
    have hkey0 : f0.1 = "unsubscribe" := by simpa using List.find?_some hfind
    have hlist := h f0 (List.mem_of_find?_eq_some hfind) hkey0
    simp only [if_true, pySubscript, hfind, ok_bind]
    cases hv : f0.2 with
    | arr items => rw [hv] at hlist; simp [isList] at hlist
    | scalar v => rfl
    | obj fs => rfl

theorem unsubscribeStep_obj_arr (st : Registry) (ws : Conn)
    (fields : List (String × Json)) (items : List Json)
    (hfind : fields.find? (fun f => decide (f.1 = "unsubscribe")) =
      some ("unsubscribe", .arr items)) :
    unsubscribeStep st ws (.obj fields) = unsubscribe st ws items := by
  have hmem := List.mem_of_find?_eq_some hfind
  have hkey := List.find?_some hfind
  have hany : fields.any (fun f => decide (f.1 = "unsubscribe")) = true :=
    List.any_eq_true.mpr ⟨("unsubscribe", Json.arr items), hmem, hkey⟩
  rw [unsubscribeStep]
  simp only [pyContainsKey, ok_bind, hany, if_true, pySubscript, hfind]

/-! ### The claims -/

/-- C1: for every registry snapshot and every `broadcast(channel, event_type,
payload)` call, the fan-out performs exactly one send attempt of the
serialized message to each connection registered in the snapshot whose
subscription set contains `channel`, and no attempt to any other
connection. -/
theorem C1_broadcast_exact_delivery (st : Registry) (fault : Conn → Bool)
    (channel event_type : String) (payload : Json) (ws : Conn) (hwf : WF st) :
    attemptsTo (broadcast st fault channel event_type payload).1 ws =
      (match lookupConn st ws with
       | some s => if Scalar.str channel ∈ s then 1 else 0
       | none => 0) := by
  have hfun : (fun p : Conn × SubSet => decide (Scalar.str channel ∈ p.2) &&
      isAttemptTo ws (sendAttempt fault (message_json channel event_type payload) p.1)) =
      (fun p : Conn × SubSet => decide (Scalar.str channel ∈ p.2) && decide (p.1 = ws)) := by
    funext p
    rw [isAttemptTo_sendAttempt]
  rw [attemptsTo, countP_broadcast st fault channel event_type payload _ rfl rfl, hfun,
    countP_key_of_nodup st hwf ws (fun c s => decide (Scalar.str channel ∈ s))]
  cases lookupConn st ws with
  | none => rfl
  | some s => by_cases h : Scalar.str channel ∈ s <;> simp [h]

/-- Witness for C1: a registry where connection 5 subscribes to "order" and
connection 7 subscribes to nothing gets exactly one attempt to 5. -/
theorem C1_witness :
    attemptsTo (broadcast [(5, {Scalar.str "order"}), (7, ∅)] (fun _ => false)
      "order" "updated" (Json.obj [("entity_id", Json.str "42")])).1 5 =
      (match lookupConn [(5, {Scalar.str "order"}), (7, ∅)] 5 with
       | some s => if Scalar.str "order" ∈ s then 1 else 0
       | none => 0) :=
  C1_broadcast_exact_delivery [(5, {Scalar.str "order"}), (7, ∅)] (fun _ => false)
    "order" "updated" (Json.obj [("entity_id", Json.str "42")]) 5 (by decide)

/-- C2 counterexample: already on the empty registry, `subscribe` and
`unsubscribe` against an unregistered connection raise `KeyError`
(`self._connections[websocket]` with a missing key) instead of being silent
no-ops, refuting the claim as stated. -/
theorem C2_counterexample :
    subscribe [] 0 [Json.str "order"] = .error .keyError ∧
    unsubscribe [] 0 [Json.str "order"] = .error .keyError :=
  ⟨rfl, rfl⟩

/-- C2 amended: for every connection that is not currently registered,
`subscribe`/`unsubscribe` raise `KeyError`; the registry itself is left
unchanged only because the dict lookup fails before any mutation. -/
theorem C2_amended_keyerror (st : Registry) (ws : Conn) (channels : List Json)
    (h : lookupConn st ws = none) :
    subscribe st ws channels = .error .keyError ∧
    unsubscribe st ws channels = .error .keyError := by
  rw [subscribe, unsubscribe, h]
  exact ⟨rfl, rfl⟩

/-- Witness for C2 amended: connection 2 is not registered. -/
theorem C2_amended_witness :
    subscribe [(1, (∅ : SubSet))] 2 [Json.str "a"] = .error .keyError ∧
    unsubscribe [(1, (∅ : SubSet))] 2 [Json.str "a"] = .error .keyError :=
  C2_amended_keyerror [(1, ∅)] 2 [Json.str "a"] (by decide)

/-- C3 counterexample: with one subscriber to "order", the broadcast trace
performs a send while `self._lock` is held, refuting "no network send is
performed while the registry's exclusion lock is held". -/
theorem C3_counterexample :
    sendsWhileLocked (broadcast [(0, {Scalar.str "order"})] (fun _ => false)
      "order" "updated" Json.null).1 ≠ [] := by
  decide

/-- C3 amended: `broadcast` takes the snapshot
(`list(self._connections.items())`) and performs ALL its sends while holding
the exclusion lock — every send attempt of the trace lies inside the
critical section. -/
theorem C3_amended_sends_inside_lock (st : Registry) (fault : Conn → Bool)
    (channel event_type : String) (payload : Json) :
    sendsWhileLocked (broadcast st fault channel event_type payload).1 =
      (broadcast st fault channel event_type payload).1.filter isAttempt := by
  have hb := broadcast_body_attempts st fault channel
    (message_json channel event_type payload)
  rw [broadcast_fst, sendsWhileLocked, List.cons_append]
  rw [show ∀ rest, attemptsLocked false (Ev.acquire :: rest) = attemptsLocked true rest
    from fun _ => rfl]
  rw [attemptsLocked_true_of_attempts _ _ hb]
  rw [show attemptsLocked true [Ev.release] = [] from rfl]
  rw [List.filter_cons, List.filter_append]
  rw [List.filter_eq_self.mpr hb]
  simp [isAttempt]

/-- C4: a transport fault during a send is caught inside `broadcast`'s
per-connection `try/except`: the call still attempts every other matching
subscriber (a non-faulting matching subscriber always receives its send, a
faulting one produces a swallowed failure), returns normally — `broadcast`
is a total function on the embedded state — and never mutates the registry,
so no unregister is triggered by the failure. -/
theorem C4_fault_isolation (st : Registry) (fault : Conn → Bool)
    (channel event_type : String) (payload : Json) :
    (broadcast st fault channel event_type payload).2 = st ∧
    (∀ p ∈ st, Scalar.str channel ∈ p.2 → fault p.1 = false →
      Ev.send p.1 (message_json channel event_type payload) ∈
        (broadcast st fault channel event_type payload).1) ∧
    (∀ p ∈ st, Scalar.str channel ∈ p.2 → fault p.1 = true →
      Ev.sendFail p.1 ∈ (broadcast st fault channel event_type payload).1) := by
  refine ⟨rfl, ?_, ?_⟩ <;> intro p hp hmem hf <;> rw [broadcast_fst, List.cons_append] <;>
    refine List.mem_cons_of_mem _ (List.mem_append_left _ ?_) <;>
    exact List.mem_filterMap.mpr ⟨p, hp, by rw [if_pos hmem]; simp [sendAttempt, hf]⟩

/-- Witness for C4: connection 1 faults, connection 2 still gets its send, and
the registry is unchanged. -/
theorem C4_witness :
    (broadcast [(1, {Scalar.str "a"}), (2, {Scalar.str "a"})] (fun w => w == 1)
        "a" "e" Json.null).2 = [(1, {Scalar.str "a"}), (2, {Scalar.str "a"})] ∧
    Ev.send 2 (message_json "a" "e" Json.null) ∈
      (broadcast [(1, {Scalar.str "a"}), (2, {Scalar.str "a"})] (fun w => w == 1)
        "a" "e" Json.null).1 ∧
    Ev.sendFail 1 ∈
      (broadcast [(1, {Scalar.str "a"}), (2, {Scalar.str "a"})] (fun w => w == 1)
        "a" "e" Json.null).1 := by
  have h := C4_fault_isolation [(1, {Scalar.str "a"}), (2, {Scalar.str "a"})]
    (fun w => w == 1) "a" "e" Json.null
  exact ⟨h.1, h.2.1 (2, {Scalar.str "a"}) (by decide) (by decide) (by decide),
    h.2.2 (1, {Scalar.str "a"}) (by decide) (by decide) (by decide)⟩

/-- C5: for a connection registered with subscription set S,
`subscribe(C, L1)` then `unsubscribe(C, L2)` both succeed and leave the
subscription set `(S ∪ L1) \ L2`.  Duplicates collapse (`toFinset`), so
subscribing twice to a channel and unsubscribing once removes it. -/
theorem C5_subscribe_unsubscribe_roundtrip (st : Registry) (ws : Conn) (S : SubSet)
    (L1 L2 : List String) (h : lookupConn st ws = some S) :
    subscribe st ws (L1.map Json.str) =
      .ok (writeConn st ws (S ∪ (L1.map Scalar.str).toFinset)) ∧
    unsubscribe (writeConn st ws (S ∪ (L1.map Scalar.str).toFinset)) ws
        (L2.map Json.str) =
      .ok (writeConn (writeConn st ws (S ∪ (L1.map Scalar.str).toFinset)) ws
        ((S ∪ (L1.map Scalar.str).toFinset) \ (L2.map Scalar.str).toFinset)) ∧
    lookupConn (writeConn (writeConn st ws (S ∪ (L1.map Scalar.str).toFinset)) ws
        ((S ∪ (L1.map Scalar.str).toFinset) \ (L2.map Scalar.str).toFinset)) ws =
      some ((S ∪ (L1.map Scalar.str).toFinset) \ (L2.map Scalar.str).toFinset) := by
  have h1 := subscribe_map_str st ws S L1 h
  have hl1 : lookupConn (writeConn st ws (S ∪ (L1.map Scalar.str).toFinset)) ws =
      some (S ∪ (L1.map Scalar.str).toFinset) :=
    lookupConn_writeConn_self st ws S _ h
  have h2 := unsubscribe_map_str _ ws _ L2 hl1
  exact ⟨h1, h2, lookupConn_writeConn_self _ ws _ _ hl1⟩

/-- Witness for C5: connection 0 already subscribed to "a" subscribes to "a"
a second time, then unsubscribes once — the final set has no "a"
(`({a} ∪ {a}) \ {a} = ∅`). -/
theorem C5_witness :
    subscribe [(0, ({Scalar.str "a"} : SubSet))] 0 (["a"].map Json.str) =
      .ok (writeConn [(0, ({Scalar.str "a"} : SubSet))] 0
        ({Scalar.str "a"} ∪ (["a"].map Scalar.str).toFinset)) ∧
    unsubscribe (writeConn [(0, ({Scalar.str "a"} : SubSet))] 0
        ({Scalar.str "a"} ∪ (["a"].map Scalar.str).toFinset)) 0 (["a"].map Json.str) =
      .ok (writeConn (writeConn [(0, ({Scalar.str "a"} : SubSet))] 0
        ({Scalar.str "a"} ∪ (["a"].map Scalar.str).toFinset)) 0
        (({Scalar.str "a"} ∪ (["a"].map Scalar.str).toFinset) \
          (["a"].map Scalar.str).toFinset)) ∧
    lookupConn (writeConn (writeConn [(0, ({Scalar.str "a"} : SubSet))] 0
        ({Scalar.str "a"} ∪ (["a"].map Scalar.str).toFinset)) 0
        (({Scalar.str "a"} ∪ (["a"].map Scalar.str).toFinset) \
          (["a"].map Scalar.str).toFinset)) 0 =
      some (({Scalar.str "a"} ∪ (["a"].map Scalar.str).toFinset) \
        (["a"].map Scalar.str).toFinset) :=
  C5_subscribe_unsubscribe_roundtrip [(0, {Scalar.str "a"})] 0 {Scalar.str "a"}
    ["a"] ["a"] (by decide)

/-- C6: `unregister` removes the connection and its subscription set when
present (the key no longer resolves, other connections are untouched), is
idempotent, and is a silent no-op when the connection was never registered
or was already removed. -/
theorem C6_unregister_noop_idempotent (st : Registry) (ws : Conn) :
    lookupConn (unregister st ws) ws = none ∧
    unregister (unregister st ws) ws = unregister st ws ∧
    (lookupConn st ws = none → unregister st ws = st) ∧
    (∀ w, w ≠ ws → lookupConn (unregister st ws) w = lookupConn st w) := by
  refine ⟨?_, ?_, ?_, ?_⟩
  · have hnone : (unregister st ws).find? (fun p => decide (p.1 = ws)) = none := by
      rw [List.find?_eq_none]
      intro x hx
      have hxm := (List.mem_filter.mp hx).2
      simpa using hxm
    rw [lookupConn, hnone]
    rfl
  · simp only [unregister, List.filter_filter]
    congr 1
    funext p
    exact Bool.and_self _
  · intro h
    rw [unregister, List.filter_eq_self]
    intro p hp
    have hfind : st.find? (fun p => decide (p.1 = ws)) = none := by
      rw [lookupConn] at h
      exact Option.map_eq_none'.mp h
    have := List.find?_eq_none.mp hfind p hp
    simpa using this
  · intro w hw
    induction st with
    | nil => rfl
    | cons p tl ih =>
      rw [unregister, List.filter_cons]
      by_cases hp : p.1 = ws
      · rw [if_neg (by simp [hp])]
        rw [lookupConn_cons, if_neg (fun hc : p.1 = w => hw (by rw [← hc]; exact hp))]
        exact ih
      · rw [if_pos (by simpa using hp), lookupConn_cons, lookupConn_cons]
        by_cases hpw : p.1 = w
        · rw [if_pos hpw, if_pos hpw]
        · rw [if_neg hpw, if_neg hpw]
          exact ih

/-- Witness for C6: removing connection 0 twice equals removing it once;
removing the unregistered connection 2 is a no-op; connection 1 is
untouched. -/
theorem C6_witness :
    lookupConn (unregister [(0, (∅ : SubSet)), (1, ∅)] 0) 0 = none ∧
    unregister (unregister [(0, (∅ : SubSet)), (1, ∅)] 0) 0 =
      unregister [(0, (∅ : SubSet)), (1, ∅)] 0 ∧
    unregister [(0, (∅ : SubSet)), (1, ∅)] 2 = [(0, ∅), (1, ∅)] ∧
    lookupConn (unregister [(0, (∅ : SubSet)), (1, ∅)] 0) 1 =
      lookupConn [(0, (∅ : SubSet)), (1, ∅)] 1 := by
  have hA := C6_unregister_noop_idempotent [(0, (∅ : SubSet)), (1, ∅)] 0
  have hB := C6_unregister_noop_idempotent [(0, (∅ : SubSet)), (1, ∅)] 2
  exact ⟨hA.1, hA.2.1, hB.2.2.1 (by decide), hA.2.2.2 1 (by decide)⟩

/-- C7: the message is serialized once — `message_json` is computed before
the fan-out loop — and that identical frame, `json.dumps` of
`{"channel": channel, "event": event_type, "payload": payload}` in that key
order, is what every successful send carries; each matching non-faulting
subscriber receives it exactly once, as a single discrete frame. -/
theorem C7_single_serialized_frame (st : Registry) (fault : Conn → Bool)
    (channel event_type : String) (payload : Json) (hwf : WF st) :
    message_json channel event_type payload =
      dumps (.obj [("channel", .str channel), ("event", .str event_type),
        ("payload", payload)]) ∧
    (∀ ws m, Ev.send ws m ∈ (broadcast st fault channel event_type payload).1 →
      m = message_json channel event_type payload) ∧
    (∀ ws s, lookupConn st ws = some s → Scalar.str channel ∈ s → fault ws = false →
      (broadcast st fault channel event_type payload).1.countP
        (fun e => e = Ev.send ws (message_json channel event_type payload)) = 1) := by
  refine ⟨rfl, ?_, ?_⟩
  · intro ws m hm
    rw [broadcast_fst, List.cons_append] at hm
    rcases List.mem_cons.mp hm with heq | hm
    · exact absurd heq (by simp)
    rcases List.mem_append.mp hm with hb | hr
    · obtain ⟨p, hp, hpe⟩ := List.mem_filterMap.mp hb
      by_cases h : Scalar.str channel ∈ p.2
      · rw [if_pos h, Option.some.injEq] at hpe
        by_cases hf : fault p.1
        · rw [sendAttempt, if_pos hf] at hpe
          exact absurd hpe (by simp)
        · rw [sendAttempt, if_neg hf] at hpe
          injection hpe with h1 h2
          exact h2.symm
      · rw [if_neg h] at hpe
        exact absurd hpe (by simp)
    · exact absurd hr (by simp)
  · intro ws s hlook hmem hf
    rw [countP_broadcast st fault channel event_type payload _ (by simp) (by simp)]
    have hfun : (fun p : Conn × SubSet => decide (Scalar.str channel ∈ p.2) &&
        decide (sendAttempt fault (message_json channel event_type payload) p.1 =
          Ev.send ws (message_json channel event_type payload))) =
        (fun p : Conn × SubSet => (decide (Scalar.str channel ∈ p.2) && !fault p.1) &&
          decide (p.1 = ws)) := by
      funext p
      by_cases hfp : fault p.1 <;> by_cases hpw : p.1 = ws <;>
        simp [sendAttempt, hfp, hpw]
    rw [hfun, countP_key_of_nodup st hwf ws
      (fun c s => decide (Scalar.str channel ∈ s) && !fault c), hlook]
    simp [hmem, hf]

/-- Witness for C7: one subscriber, no fault — exactly one copy of the
serialized frame is sent to it. -/
theorem C7_witness :
    (broadcast [(3, {Scalar.str "ch"})] (fun _ => false) "ch" "ev"
        Json.null).1.countP
      (fun e => e = Ev.send 3 (message_json "ch" "ev" Json.null)) = 1 :=
  (C7_single_serialized_frame [(3, {Scalar.str "ch"})] (fun _ => false) "ch" "ev"
    Json.null (by decide)).2.2 3 {Scalar.str "ch"} (by decide) (by decide) rfl

/-- C8: `get_subscriber_count` equals the number of registered connections
whose subscription set contains the channel, `get_total_connections` equals
the number of registered connections, and the spec's scenario evaluates as
claimed: after connection 1 subscribes to "order" and connection 2 to
"order"/"contact", the count for "order" is 2, then 1 after 1 unregisters,
then 0 after 2 also unregisters. -/
theorem C8_subscriber_count (st : Registry) (channel : String) :
    get_subscriber_count st channel =
      (st.filter (fun p => Scalar.str channel ∈ p.2)).length ∧
    get_total_connections st = st.length ∧
    subscribe (register (register [] 1) 2) 1 [Json.str "order"] =
      .ok [(1, {Scalar.str "order"}), (2, ∅)] ∧
    subscribe [(1, {Scalar.str "order"}), (2, ∅)] 2
      [Json.str "order", Json.str "contact"] =
      .ok [(1, {Scalar.str "order"}), (2, {Scalar.str "order", Scalar.str "contact"})] ∧
    get_subscriber_count [(1, {Scalar.str "order"}),
      (2, {Scalar.str "order", Scalar.str "contact"})] "order" = 2 ∧
    get_subscriber_count (unregister [(1, {Scalar.str "order"}),
      (2, {Scalar.str "order", Scalar.str "contact"})] 1) "order" = 1 ∧
    get_subscriber_count (unregister (unregister [(1, {Scalar.str "order"}),
      (2, {Scalar.str "order", Scalar.str "contact"})] 1) 2) "order" = 0 := by
  refine ⟨?_, rfl, by decide, by decide, by decide, by decide, by decide⟩
  rw [get_subscriber_count,
    foldl_count_eq (fun p => Scalar.str channel ∈ p.2) st 0, Nat.zero_add]

/-- C9 counterexample: a frame that is valid JSON but not an object — the
number 5 — is an "unrecognized shape" yet is not ignored: `"subscribe" in 5`
raises `TypeError`, which propagates and terminates the read loop, so the
connection does not stay open. -/
theorem C9_counterexample :
    handleFrame [(0, ∅)] 0 (Json.num 5) = .error .typeError := rfl

/-- C9 amended: for inbound frames that are JSON objects, the tolerant
behavior holds: when the "subscribe" key is absent or its value is not a
list, and likewise for "unsubscribe", the frame is ignored — no error, no
registry change, and the read loop continues.  Non-object frames (numbers,
booleans, null) instead raise `TypeError` and close the connection. -/
theorem C9_amended_malformed_object_ignored (st : Registry) (ws : Conn)
    (fields : List (String × Json))
    (hsub : ∀ f ∈ fields, f.1 = "subscribe" → isList f.2 = false)
    (hunsub : ∀ f ∈ fields, f.1 = "unsubscribe" → isList f.2 = false) :
    handleFrame st ws (.obj fields) = .ok st := by
  rw [handleFrame, subscribeStep_obj_malformed st ws fields hsub, ok_bind,
    unsubscribeStep_obj_malformed st ws fields hunsub]

/-- Witness for C9 amended: an object frame with an unknown key and a
non-list "subscribe" value leaves the registry untouched. -/
theorem C9_witness :
    handleFrame [(4, ({Scalar.str "x"} : SubSet))] 4
      (.obj [("other", Json.num 1), ("subscribe", Json.str "nope")]) =
      .ok [(4, ({Scalar.str "x"} : SubSet))] :=
  C9_amended_malformed_object_ignored _ _ _ (by decide) (by decide)

/-- C10: a single frame carrying both a "subscribe" list L1 and an
"unsubscribe" list L2 applies the union first and the difference second,
leaving `(S ∪ L1) \ L2` — so a channel named in both lists is absent
afterwards. -/
theorem C10_combined_frame_subscribe_first (st : Registry) (ws : Conn) (S : SubSet)
    (L1 L2 : List String) (h : lookupConn st ws = some S) :
    handleFrame st ws (.obj [("subscribe", .arr (L1.map Json.str)),
        ("unsubscribe", .arr (L2.map Json.str))]) =
      .ok (writeConn (writeConn st ws (S ∪ (L1.map Scalar.str).toFinset)) ws
        ((S ∪ (L1.map Scalar.str).toFinset) \ (L2.map Scalar.str).toFinset)) ∧
    lookupConn (writeConn (writeConn st ws (S ∪ (L1.map Scalar.str).toFinset)) ws
        ((S ∪ (L1.map Scalar.str).toFinset) \ (L2.map Scalar.str).toFinset)) ws =
      some ((S ∪ (L1.map Scalar.str).toFinset) \ (L2.map Scalar.str).toFinset) ∧
    (∀ c ∈ L2, Scalar.str c ∉
      ((S ∪ (L1.map Scalar.str).toFinset) \ (L2.map Scalar.str).toFinset)) := by
  have hfind1 : ([("subscribe", Json.arr (L1.map Json.str)),
      ("unsubscribe", Json.arr (L2.map Json.str))]).find?
        (fun f => decide (f.1 = "subscribe")) =
      some ("subscribe", Json.arr (L1.map Json.str)) :=
    List.find?_cons_of_pos _ (by simp)
  have hfind2 : ([("subscribe", Json.arr (L1.map Json.str)),
      ("unsubscribe", Json.arr (L2.map Json.str))]).find?
        (fun f => decide (f.1 = "unsubscribe")) =
      some ("unsubscribe", Json.arr (L2.map Json.str)) := by
    rw [List.find?_cons_of_neg _ (by simp), List.find?_cons_of_pos _ (by simp)]
  have hl1 : lookupConn (writeConn st ws (S ∪ (L1.map Scalar.str).toFinset)) ws =
      some (S ∪ (L1.map Scalar.str).toFinset) :=
    lookupConn_writeConn_self st ws S _ h
  refine ⟨?_, lookupConn_writeConn_self _ ws _ _ hl1, ?_⟩
  · rw [handleFrame, subscribeStep_obj_arr st ws _ _ hfind1,
      subscribe_map_str st ws S L1 h, ok_bind,
      unsubscribeStep_obj_arr _ ws _ _ hfind2, unsubscribe_map_str _ ws _ L2 hl1]
  · intro c hc
    rw [Finset.mem_sdiff]
    rintro ⟨-, hnot⟩
    exact hnot (List.mem_toFinset.mpr (List.mem_map_of_mem Scalar.str hc))

/-- Witness for C10: subscribing to "a","b" and unsubscribing from "b" in
one frame leaves a set without "b". -/
theorem C10_witness :
    handleFrame [(0, (∅ : SubSet))] 0
      (.obj [("subscribe", .arr (["a", "b"].map Json.str)),
        ("unsubscribe", .arr (["b"].map Json.str))]) =
      .ok (writeConn (writeConn [(0, (∅ : SubSet))] 0
        (∅ ∪ (["a", "b"].map Scalar.str).toFinset)) 0
        ((∅ ∪ (["a", "b"].map Scalar.str).toFinset) \
          (["b"].map Scalar.str).toFinset)) ∧
    Scalar.str "b" ∉
      ((∅ ∪ (["a", "b"].map Scalar.str).toFinset) \
        (["b"].map Scalar.str).toFinset) := by
  have h := C10_combined_frame_subscribe_first [(0, ∅)] 0 ∅ ["a", "b"] ["b"]
    (by decide)
  exact ⟨h.1, h.2.2 "b" (by decide)⟩

end SyncPatterns
